import Mathlib

/-!
Shallow embedding of `src/function_app.py`, a three-step Azure Durable
Functions document pipeline: a blob trigger starts an orchestration
`process_document`, which calls the activities `analyze_pdf`,
`summarize_text` and `write_doc` in sequence with a shared retry policy.

JSON-like values passed between the trigger, the orchestrator and the
activities are modelled by `Value`; timestamps by a `Timestamp` record
(Python `datetime` fields; `datetime` years are always between 1 and 9999);
external collaborators (blob store, Form Recognizer, OpenAI) are abstract
parameters of the activity functions.
-/

/-- JSON-like values exchanged between the trigger, orchestrator and
activities (Python strings, dicts, lists and None). -/
inductive Value where
  | null
  | str (s : String)
  | arr (items : List Value)
  | obj (fields : List (String × Value))

/-- Python `d[key]` / `d.get(key)` on a dict value: `some` when `key` is
present in an object, `none` otherwise (including non-dict values). -/
def Value.lookup : Value → String → Option Value
  | Value.obj fields, key => List.lookup key fields
  | _, _ => Option.none

/-- Fields of a Python `datetime` as used by `datetime.now()` in
`write_doc`. Python constrains `1 <= year <= 9999`. -/
structure Timestamp where
  year : Nat
  month : Nat
  day : Nat
  hour : Nat
  minute : Nat
  second : Nat
deriving DecidableEq

/-- The decimal digit character for `n % 10`. -/
def digitChar (n : Nat) : Char := Char.ofNat (48 + n % 10)

/-- Zero-padded two-digit decimal rendering (strftime `%m`, `%d`, `%H`,
`%M`, `%S`; the fields are below 100). -/
def pad2 (n : Nat) : String := String.mk [digitChar (n / 10), digitChar n]

/-- Zero-padded four-digit decimal rendering (strftime `%Y`; Python
`datetime` years are below 10000). -/
def pad4 (n : Nat) : String :=
  String.mk [digitChar (n / 1000), digitChar (n / 100), digitChar (n / 10), digitChar n]

/-- Python `datetime.strftime("%Y%m%d-%H%M%S")` from `write_doc`. -/
def strftime_Ymd_HMS (t : Timestamp) : String :=
  pad4 t.year ++ pad2 t.month ++ pad2 t.day ++ "-" ++
    pad2 t.hour ++ pad2 t.minute ++ pad2 t.second

/-- One call to `container_client.upload_blob(name=..., data=..., overwrite=True)`:
the container it is issued on, the blob name and the uploaded data. -/
structure WriteEffect where
  container : String
  name : String
  data : Value

/-- A blob store as a list of (container, name, data) triples; `upload_blob`
with `overwrite=True` replaces any existing blob with the same container
and name. -/
def applyUpload (store : List (String × String × Value)) (e : WriteEffect) :
    List (String × String × Value) :=
  (e.container, e.name, e.data) ::
    store.filter (fun x => !(x.1 == e.container && x.2.1 == e.name))

/-- Activity `write_doc` (src/function_app.py lines 104-119). Reads
`results['blobName']` (a `KeyError` outside the try block fails the
activity), computes `timestamp = datetime.now().strftime("%Y%m%d-%H%M%S")`
and `filename = f"{results['blobName']}-{timestamp}.txt"`, then uploads
`results['summary'].get('content', 'No summary generated')` to the
`output` container under `filename` and returns `filename`. `now` is the
wall-clock time observed inside the activity; exceptions are modelled as
`Except.error` (the Python code logs and re-raises them). -/
def write_doc (now : Timestamp) (results : Value) : Except String (String × WriteEffect) :=
  match results.lookup "blobName" with
  | some (Value.str blob_name) =>
    let timestamp := strftime_Ymd_HMS now
    let filename := blob_name ++ "-" ++ timestamp ++ ".txt"
    match results.lookup "summary" with
    | some (Value.obj summary_fields) =>
      let content := (List.lookup "content" summary_fields).getD
        (Value.str "No summary generated")
      Except.ok (filename, ⟨"output", filename, content⟩)
    | _ => Except.error "KeyError or AttributeError: results summary"
  | _ => Except.error "KeyError: blobName"

/-- Activity `analyze_pdf` (src/function_app.py lines 52-71), flattening
step only: the downloaded blob and the Form Recognizer call are external
collaborators, so the activity is modelled on the analysis result `pages`
(each page its list of line contents, in order). The code does
`full_text = ""` and then `full_text += line.content + "\n"` for each line
of each page. -/
def analyze_pdf (pages : List (List String)) : String :=
  pages.foldl
    (fun full_text page =>
      page.foldl (fun acc line => acc ++ line ++ "\n") full_text)
    ""

/-- Activity `summarize_text` (src/function_app.py lines 73-101). The
OpenAI chat-completion backend is an abstract collaborator mapping the
user prompt to a raw response value (or an exception). The code builds the
prompt `f"Can you explain what the following text is about? {results}"`,
reads `response['choices'][0]['message']['content']` and returns
`{"content": content}`; any exception in the try block is logged and
re-raised (modelled as `Except.error`). -/
def summarize_text (backend : String → Except String Value) (results : String) :
    Except String Value :=
  match backend ("Can you explain what the following text is about? " ++ results) with
  | Except.error e => Except.error e
  | Except.ok response =>
    match response.lookup "choices" with
    | some (Value.arr choices) =>
      match choices.get? 0 with
      | some choice =>
        match choice.lookup "message" with
        | some message =>
          match message.lookup "content" with
          | some content => Except.ok (Value.obj [("content", content)])
          | _ => Except.error "KeyError: content"
        | _ => Except.error "KeyError: message"
      | _ => Except.error "IndexError: choices 0"
    | _ => Except.error "KeyError: choices"

/-- A well-formed OpenAI chat-completion response whose
`['choices'][0]['message']['content']` is `content`. -/
def mkResponse (content : Value) : Value :=
  Value.obj [("choices", Value.arr
    [Value.obj [("message", Value.obj [("content", content)])]])]

/-- Python `str.split(sep)` on a list of characters: splits at every
occurrence of `sep`, keeping empty segments (`"".split(sep) == [""]`). -/
def pySplit (sep : Char) (cs : List Char) : List (List Char) :=
  cs.foldr
    (fun c acc =>
      if c = sep then [] :: acc
      else
        match acc with
        | [] => [[c]]
        | seg :: rest => (c :: seg) :: rest)
    [[]]

/-- Trigger `blob_trigger` (src/function_app.py lines 29-37): computes
`blob_name = myblob.name.split("/")[1]` and issues exactly one
`client.start_new("process_document", client_input=blob_name)`. The result
is the list of (orchestration name, input) starts; `Option.none` models the
`IndexError` when the path has no second segment. -/
def blob_trigger (blob_path : String) : Option (List (String × String)) :=
  match (pySplit '/' blob_path.data).get? 1 with
  | some name_chars => some [("process_document", String.mk name_chars)]
  | Option.none => Option.none

/-- Module-level initialization (src/function_app.py lines 17-20):
`connection_string = os.environ.get("AzureWebJobsStorage")`, then
`if not connection_string: raise ValueError(...)`. `env` maps an
environment variable name to its value when set. Python truthiness: both
`None` and the empty string are falsy. -/
def module_init (env : String → Option String) : Except String Unit :=
  let connection_string := env "AzureWebJobsStorage"
  match connection_string with
  | Option.none =>
    Except.error "AzureWebJobsStorage connection string not found in environment variables."
  | some s =>
    if s.isEmpty then
      Except.error "AzureWebJobsStorage connection string not found in environment variables."
    else Except.ok ()

/-- `df.RetryOptions(first_retry_interval_in_milliseconds, max_number_of_attempts)`. -/
structure RetryOptions where
  first_retry_interval_in_milliseconds : Nat
  max_number_of_attempts : Nat
deriving DecidableEq

/-- What an orchestrator body does when resumed: either yield one
`call_activity_with_retry(name, retry, input)` or return an output. -/
inductive OrchAction where
  | call (activity : String) (retry : RetryOptions) (input : Value)
  | ret (output : Value)

/-- Orchestrator `process_document` (src/function_app.py lines 39-50) under
replay semantics: the generator body as a function of the orchestration
input and the history of already-completed activity results. With empty
history it yields the `analyze_pdf` call; with one result (the extracted
text) it yields the `summarize_text` call; with two it yields the
`write_doc` call on `{"blobName": blob_name, "summary": summary}`; with
three it returns the third result. `retry_options = df.RetryOptions(5000, 3)`. -/
def process_document (input : Value) (history : List Value) : OrchAction :=
  let retry_options : RetryOptions := ⟨5000, 3⟩
  match history with
  | [] => OrchAction.call "analyze_pdf" retry_options input
  | [extracted_text] => OrchAction.call "summarize_text" retry_options extracted_text
  | [_, summary] => OrchAction.call "write_doc" retry_options
      (Value.obj [("blobName", input), ("summary", summary)])
  | _ :: _ :: output :: _ => OrchAction.ret output

/-- The retry policy of an orchestrator action, when it is a call. -/
def retryOf : OrchAction → Option RetryOptions
  | OrchAction.call _ retry _ => some retry
  | OrchAction.ret _ => Option.none

/-- Drives `process_document` to completion against activity
implementations `acts` (every activity succeeding), starting from a given
history and accumulated call trace; `fuel` bounds the number of resumes. -/
def replayLoop (acts : String → Value → Value) (input : Value) :
    Nat → List Value → List (String × Value) →
    Option (List (String × Value) × Value)
  | 0, _, _ => Option.none
  | Nat.succ fuel, history, trace =>
    match process_document input history with
    | OrchAction.call name _ arg =>
      replayLoop acts input fuel (history ++ [acts name arg]) (trace ++ [(name, arg)])
    | OrchAction.ret output => some (trace, output)

/-- A complete run of the orchestration: the sequence of activity calls it
makes (name and argument, in order) and its returned output. -/
def runOrch (acts : String → Value → Value) (input : Value) :
    Option (List (String × Value) × Value) :=
  replayLoop acts input 4 [] []

/-- Activity implementations for a run in which every collaborator
succeeds: the analysis service recognizes `pages` for the input document,
the completion backend always answers with content `c`, and `write_doc`
executes at wall-clock time `t`. -/
def actsOf (pages : List (List String)) (c : Value) (t : Timestamp) :
    String → Value → Value :=
  fun name arg =>
    match name with
    | "analyze_pdf" => Value.str (analyze_pdf pages)
    | "summarize_text" =>
      match arg with
      | Value.str s =>
        match summarize_text (fun _ => Except.ok (mkResponse c)) s with
        | Except.ok v => v
        | Except.error _ => Value.null
      | _ => Value.null
    | "write_doc" =>
      match write_doc t arg with
      | Except.ok (filename, _) => Value.str filename
      | Except.error _ => Value.null
    | _ => Value.null

/-- Modelled from the spec's words in sections 4.4 and 8 for comparison with
`analyze_pdf`: the reading of the flattening as the line contents "joined by
newlines" in the separator sense (`"\n".join(lines)`, no trailing newline). -/
def specNewlineJoin (pages : List (List String)) : String :=
  String.intercalate "\n" pages.flatten

/-- A concrete `datetime.now()` value: 2024-01-02 03:04:05. -/
def t0 : Timestamp := ⟨2024, 1, 2, 3, 4, 5⟩

/-- An environment in which `AzureWebJobsStorage` is set to the empty
string (present, but Python-falsy). -/
def env_empty_conn : String → Option String :=
  fun key => if key = "AzureWebJobsStorage" then some "" else Option.none

section Helpers

theorem digitChar_isDigit (n : Nat) : (digitChar n).isDigit = true := by
  have h : n % 10 < 10 := Nat.mod_lt _ (by omega)
  have hall : ∀ d < 10, (Char.ofNat (48 + d)).isDigit = true := by decide
  exact hall _ h

theorem digitChar_ne_dot (n : Nat) : digitChar n ≠ '.' := by
  have h : n % 10 < 10 := Nat.mod_lt _ (by omega)
  have hall : ∀ d < 10, Char.ofNat (48 + d) ≠ '.' := by decide
  exact hall _ h

theorem foldl_str_append (l : List String) (a : String) :
    l.foldl (fun x y => x ++ y) a = a ++ l.foldl (fun x y => x ++ y) "" := by
  induction l generalizing a with
  | nil => simp [List.foldl, String.append_empty]
  | cons s rest ih =>
    simp only [List.foldl]
    rw [ih (a ++ s), ih ("" ++ s), String.empty_append, String.append_assoc]

theorem join_cons (s : String) (rest : List String) :
    String.join (s :: rest) = s ++ String.join rest := by
  unfold String.join
  simp only [List.foldl]
  rw [foldl_str_append rest ("" ++ s), String.empty_append]

theorem join_append (a b : List String) :
    String.join (a ++ b) = String.join a ++ String.join b := by
  induction a with
  | nil => simp [String.join, String.empty_append]
  | cons s rest ih =>
    rw [List.cons_append, join_cons, join_cons, ih, String.append_assoc]

theorem analyze_lines_foldl (lines : List String) (acc : String) :
    lines.foldl (fun a line => a ++ line ++ "\n") acc
      = acc ++ String.join (lines.map (fun line => line ++ "\n")) := by
  induction lines generalizing acc with
  | nil => simp [List.foldl, String.join, String.append_empty]
  | cons l rest ih =>
    simp only [List.foldl, List.map]
    rw [ih, join_cons]
    simp [String.append_assoc]

theorem analyze_pdf_foldl (pages : List (List String)) (acc : String) :
    pages.foldl
        (fun full_text page => page.foldl (fun a line => a ++ line ++ "\n") full_text) acc
      = acc ++ String.join (pages.flatten.map (fun line => line ++ "\n")) := by
  induction pages generalizing acc with
  | nil => simp [List.foldl, String.join, String.append_empty]
  | cons page rest ih =>
    simp only [List.foldl, List.flatten_cons, List.map_append]
    rw [ih, analyze_lines_foldl, join_append, String.append_assoc]

theorem analyze_pdf_eq_join (pages : List (List String)) :
    analyze_pdf pages = String.join (pages.flatten.map (fun line => line ++ "\n")) := by
  unfold analyze_pdf
  rw [analyze_pdf_foldl, String.empty_append]

theorem join_terminated_of_ne_nil (xs : List String) (h : xs ≠ []) :
    ∃ s, String.join (xs.map (fun line => line ++ "\n")) = s ++ "\n" := by
  induction xs with
  | nil => exact absurd rfl h
  | cons x rest ih =>
    cases rest with
    | nil =>
      refine ⟨x, ?_⟩
      simp only [List.map, String.join, List.foldl]
      rw [String.empty_append]
    | cons y ys =>
      obtain ⟨s, hs⟩ := ih (by simp)
      refine ⟨x ++ "\n" ++ s, ?_⟩
      simp only [List.map] at hs ⊢
      rw [join_cons, hs]
      simp [String.append_assoc]

theorem pySplit_cons (sep c : Char) (cs : List Char) :
    pySplit sep (c :: cs) =
      (if c = sep then [] :: pySplit sep cs
       else
         match pySplit sep cs with
         | [] => [[c]]
         | seg :: rest => (c :: seg) :: rest) := rfl

theorem pySplit_no_sep (sep : Char) (cs : List Char) (h : sep ∉ cs) :
    pySplit sep cs = [cs] := by
  induction cs with
  | nil => rfl
  | cons c rest ih =>
    have hc : ¬ c = sep := by
      intro e
      exact h (by simp [e])
    have hr : sep ∉ rest := fun m => h (List.mem_cons_of_mem _ m)
    rw [pySplit_cons, if_neg hc, ih hr]

theorem pySplit_append (sep : Char) (pre name : List Char) (hpre : sep ∉ pre) :
    pySplit sep (pre ++ sep :: name) = pre :: pySplit sep name := by
  induction pre with
  | nil =>
    rw [List.nil_append, pySplit_cons, if_pos rfl]
  | cons c rest ih =>
    have hc : ¬ c = sep := by
      intro e
      exact hpre (by simp [e])
    have hr : sep ∉ rest := fun m => hpre (List.mem_cons_of_mem _ m)
    rw [List.cons_append, pySplit_cons, if_neg hc, ih hr]

theorem mk_data_eq (s : String) : String.mk s.data = s := by
  cases s
  rfl

theorem pad2_length (n : Nat) : (pad2 n).length = 2 := rfl

theorem pad4_length (n : Nat) : (pad4 n).length = 4 := rfl

theorem count_dot_pad2 (n : Nat) : (pad2 n).data.count '.' = 0 := by
  simp [pad2, List.count_cons, digitChar_ne_dot]

theorem count_dot_pad4 (n : Nat) : (pad4 n).data.count '.' = 0 := by
  simp [pad4, List.count_cons, digitChar_ne_dot]

end Helpers

/-- C1: For every orchestration input blobName, the orchestrator body makes
exactly three activity calls, in the order analyze_pdf, summarize_text,
write_doc, passing the analyze result as the summarize input and the object
with the blob name and the summary as the write input, and returns the
write step's result as the orchestration output. -/
theorem pipeline_three_steps_in_order (acts : String → Value → Value) (n : String) :
    runOrch acts (Value.str n) =
      some ([("analyze_pdf", Value.str n),
             ("summarize_text", acts "analyze_pdf" (Value.str n)),
             ("write_doc", Value.obj [("blobName", Value.str n),
               ("summary", acts "summarize_text" (acts "analyze_pdf" (Value.str n)))])],
            acts "write_doc" (Value.obj [("blobName", Value.str n),
              ("summary", acts "summarize_text" (acts "analyze_pdf" (Value.str n)))])) := rfl

/-- C2: For every blob name n, summary content c and wall-clock time, the
write step succeeds with a filename of the shape n, a dash, eight digits, a
dash, six digits and the extension .txt, and it uploads c to the output
container under exactly that filename, so the object exists in the store
afterward. -/
theorem write_doc_filename_pattern_and_upload (t : Timestamp) (n c : String) :
    ∃ d8 d6 : String,
      write_doc t (Value.obj [("blobName", Value.str n),
          ("summary", Value.obj [("content", Value.str c)])]) =
        Except.ok (n ++ "-" ++ d8 ++ "-" ++ d6 ++ ".txt",
          ⟨"output", n ++ "-" ++ d8 ++ "-" ++ d6 ++ ".txt", Value.str c⟩) ∧
      d8.length = 8 ∧ d8.data.all Char.isDigit = true ∧
      d6.length = 6 ∧ d6.data.all Char.isDigit = true ∧
      ∀ store, ("output", n ++ "-" ++ d8 ++ "-" ++ d6 ++ ".txt", Value.str c) ∈
        applyUpload store ⟨"output", n ++ "-" ++ d8 ++ "-" ++ d6 ++ ".txt", Value.str c⟩ := by
  have hname : n ++ "-" ++ strftime_Ymd_HMS t ++ ".txt" =
      n ++ "-" ++ (pad4 t.year ++ pad2 t.month ++ pad2 t.day) ++ "-" ++
        (pad2 t.hour ++ pad2 t.minute ++ pad2 t.second) ++ ".txt" := by
    simp [strftime_Ymd_HMS, String.append_assoc]
  refine ⟨pad4 t.year ++ pad2 t.month ++ pad2 t.day,
          pad2 t.hour ++ pad2 t.minute ++ pad2 t.second, ?_, ?_, ?_, ?_, ?_, ?_⟩
  · rw [← hname]
    rfl
  · simp [String.length_append, pad2_length, pad4_length]
  · simp [String.data_append, pad4, pad2, List.all_append, digitChar_isDigit]
  · simp [String.length_append, pad2_length]
  · simp [String.data_append, pad2, List.all_append, digitChar_isDigit]
  · intro store
    exact List.mem_cons_self _ _

/-- C3 counterexample: when the completion backend yields an empty content
string, summarize_text returns it unchanged (no placeholder substitution),
and the write step uploads the empty content, not the placeholder. -/
theorem summarize_empty_content_passthrough_cex :
    summarize_text (fun _ => Except.ok (mkResponse (Value.str ""))) "doc" =
      Except.ok (Value.obj [("content", Value.str "")]) ∧
    Value.str "" ≠ Value.str "No summary generated" ∧
    write_doc t0 (Value.obj [("blobName", Value.str "doc.pdf"),
        ("summary", Value.obj [("content", Value.str "")])]) =
      Except.ok ("doc.pdf-20240102-030405.txt",
        ⟨"output", "doc.pdf-20240102-030405.txt", Value.str ""⟩) := by
  refine ⟨rfl, ?_, rfl⟩
  intro h
  injection h with h
  exact absurd h (by decide)

/-- C3 amended: the summarize step passes the completion content through
unchanged, and the substitution of the fixed placeholder string happens in
the write step, and only when the summary object has no content key at
all. -/
theorem summarize_passthrough_write_placeholder :
    (∀ (c : Value) (s : String),
      summarize_text (fun _ => Except.ok (mkResponse c)) s =
        Except.ok (Value.obj [("content", c)])) ∧
    (∀ (t : Timestamp) (n : String),
      write_doc t (Value.obj [("blobName", Value.str n), ("summary", Value.obj [])]) =
        Except.ok (n ++ "-" ++ strftime_Ymd_HMS t ++ ".txt",
          ⟨"output", n ++ "-" ++ strftime_Ymd_HMS t ++ ".txt",
            Value.str "No summary generated"⟩)) :=
  ⟨fun _ _ => rfl, fun _ _ => rfl⟩

/-- C4 counterexample: for the dot-containing blob name a.pdf the write
step derives a filename that still contains the original dot (two dots in
total), so dots are not sanitized before .txt is appended. -/
theorem write_doc_dot_preserved_cex :
    write_doc t0 (Value.obj [("blobName", Value.str "a.pdf"),
        ("summary", Value.obj [("content", Value.str "s")])]) =
      Except.ok ("a.pdf-20240102-030405.txt",
        ⟨"output", "a.pdf-20240102-030405.txt", Value.str "s"⟩) ∧
    ("a.pdf-20240102-030405.txt" : String).data.count '.' = 2 := ⟨rfl, by decide⟩

/-- C4 amended: the write step performs no sanitization: the output
filename is the blob name verbatim, a dash, the timestamp and .txt, so its
dot count is always the blob name's dot count plus one. -/
theorem write_doc_no_dot_sanitization (t : Timestamp) (n : String)
    (fs : List (String × Value)) :
    ∃ fname eff,
      write_doc t (Value.obj [("blobName", Value.str n), ("summary", Value.obj fs)]) =
        Except.ok (fname, eff) ∧
      fname = n ++ "-" ++ strftime_Ymd_HMS t ++ ".txt" ∧
      fname.data.count '.' = n.data.count '.' + 1 := by
  refine ⟨n ++ "-" ++ strftime_Ymd_HMS t ++ ".txt", _, rfl, rfl, ?_⟩
  simp [String.data_append, List.count_append, strftime_Ymd_HMS,
    count_dot_pad2, count_dot_pad4]

/-- C5 counterexample: on a document with a single recognized line a, the
analyze step returns the line followed by a newline, which differs from the
newline-separated join of the lines. -/
theorem analyze_pdf_not_newline_join_cex :
    analyze_pdf [["a"]] = "a\n" ∧ specNewlineJoin [["a"]] = "a" ∧
      ("a\n" : String) ≠ "a" := ⟨rfl, rfl, by decide⟩

/-- C5 amended: the analyze step returns the concatenation of each
recognized line's content followed by a newline, in page order then line
order (a newline-terminated concatenation, not a separator join), and the
empty string for a document with no pages. -/
theorem analyze_pdf_terminated_concat :
    (∀ pages : List (List String),
      analyze_pdf pages = String.join (pages.flatten.map (fun line => line ++ "\n"))) ∧
    analyze_pdf [] = "" :=
  ⟨analyze_pdf_eq_join, rfl⟩

/-- C6: every activity call the orchestrator body yields carries the single
retry policy of 5000 milliseconds initial delay and 3 maximum attempts; no
step is invoked with a different policy. -/
theorem process_document_uniform_retry_policy (input : Value) (history : List Value)
    (r : RetryOptions) (h : retryOf (process_document input history) = some r) :
    r = ⟨5000, 3⟩ := by
  rcases history with _ | ⟨a, _ | ⟨b, _ | ⟨c, rest⟩⟩⟩ <;>
    simp [process_document, retryOf] at h <;>
    simp [h]

/-- C6 witness: the first resume of the orchestrator yields a call whose
retry policy is 5000 milliseconds and 3 attempts. -/
theorem process_document_uniform_retry_policy_witness :
    retryOf (process_document (Value.str "doc.pdf") []) = some ⟨5000, 3⟩ ∧
      (⟨5000, 3⟩ : RetryOptions) = ⟨5000, 3⟩ :=
  ⟨rfl, process_document_uniform_retry_policy (Value.str "doc.pdf") [] ⟨5000, 3⟩ rfl⟩

/-- C7: the orchestrator's sequence of activity calls (names and arguments,
in order) is identical for any two wall-clock times, and the returned
filename embeds the time at which the write activity itself executed: the
orchestrator body never reads the clock, only the write step does. -/
theorem orchestrator_trace_time_independent (pages : List (List String)) (c : Value)
    (t1 t2 : Timestamp) (n : String) :
    (runOrch (actsOf pages c t1) (Value.str n)).map Prod.fst =
      (runOrch (actsOf pages c t2) (Value.str n)).map Prod.fst ∧
    (runOrch (actsOf pages c t1) (Value.str n)).map Prod.snd =
      some (Value.str (n ++ "-" ++ strftime_Ymd_HMS t1 ++ ".txt")) := ⟨rfl, rfl⟩

/-- C8: for every object whose bare name (the single path segment after the
input container prefix) contains no slash, the trigger extracts that bare
name and starts exactly one orchestration instance with it as sole input. -/
theorem blob_trigger_starts_one_orchestration (name : String) (h : '/' ∉ name.data) :
    blob_trigger ("input/" ++ name) = some [("process_document", name)] := by
  unfold blob_trigger
  have hdata : ("input/" ++ name).data = ['i', 'n', 'p', 'u', 't'] ++ '/' :: name.data := by
    rw [String.data_append]
    rfl
  rw [hdata, pySplit_append '/' ['i', 'n', 'p', 'u', 't'] name.data (by decide),
      pySplit_no_sep '/' name.data h]
  simp [mk_data_eq]

/-- C8 witness: uploading report.pdf to the input container starts exactly
one process_document orchestration with input report.pdf. -/
theorem blob_trigger_starts_one_orchestration_witness :
    '/' ∉ ("report.pdf" : String).data ∧
      blob_trigger ("input/" ++ "report.pdf") = some [("process_document", "report.pdf")] :=
  ⟨by decide, blob_trigger_starts_one_orchestration "report.pdf" (by decide)⟩

/-- C9 counterexample: with the storage connection string present in the
environment but equal to the empty string, module initialization still
raises, so presence alone does not let initialization proceed. -/
theorem module_init_empty_string_cex :
    env_empty_conn "AzureWebJobsStorage" = some "" ∧
    module_init env_empty_conn =
      Except.error
        "AzureWebJobsStorage connection string not found in environment variables." :=
  ⟨rfl, rfl⟩

/-- C9 amended: module initialization succeeds exactly when the storage
connection string is present in the environment and non-empty; when it is
absent or empty, initialization raises before anything else can run. -/
theorem module_init_ok_iff (env : String → Option String) :
    module_init env = Except.ok () ↔
      ∃ s, env "AzureWebJobsStorage" = some s ∧ s ≠ "" := by
  unfold module_init
  cases henv : env "AzureWebJobsStorage" with
  | none => simp [henv]
  | some s =>
    by_cases hs : s.isEmpty
    · have hse : s = "" := (String.isEmpty_iff s).mp hs
      subst hse
      simp [hs, henv]
    · have hne : s ≠ "" := by
        intro e
        subst e
        exact hs rfl
      simp [hs, henv, hne]

/-- C9 amended witness: with the connection string set to a non-empty
value, module initialization proceeds. -/
theorem module_init_ok_iff_witness :
    module_init (fun _ => some "UseDevelopmentStorage=true") = Except.ok () :=
  (module_init_ok_iff (fun _ => some "UseDevelopmentStorage=true")).mpr
    ⟨"UseDevelopmentStorage=true", rfl, by decide⟩

/-- C10: for every document with at least one recognized line, the string
the analyze step returns ends with a trailing newline: it is a terminated
concatenation, each line content followed by a newline. -/
theorem analyze_pdf_trailing_newline (pages : List (List String))
    (h : pages.flatten ≠ []) :
    ∃ s, analyze_pdf pages = s ++ "\n" := by
  obtain ⟨s, hs⟩ := join_terminated_of_ne_nil pages.flatten h
  refine ⟨s, ?_⟩
  rw [analyze_pdf_eq_join, hs]

/-- C10 witness: a one-page one-line document yields a string ending in a
newline. -/
theorem analyze_pdf_trailing_newline_witness :
    ([["hello"]] : List (List String)).flatten ≠ [] ∧
      ∃ s, analyze_pdf [["hello"]] = s ++ "\n" :=
  ⟨by decide, analyze_pdf_trailing_newline [["hello"]] (by decide)⟩
